import Mathlib

/-!
Verification of the MTAA_25 backend (src/app.py) against its specification.

The program is a Flask + PostgreSQL HTTP backend.  We shallowly embed the
database state (the five tables created by the CREATE_*_TABLE statements,
together with the SERIAL sequences) and the request handlers that the claims
refer to.  Each handler is translated from its Python source: Python falsiness
checks on request fields (`if not x`) become checks for `none`, the empty
string, or zero, exactly as `not` behaves on the corresponding Python value;
SQL statements become list operations; declared foreign-key and NOT NULL
constraint failures, which the handlers either map to a 500 response in their
`except` clause or leave unhandled (Flask then answers 500), become explicit
500 branches that leave the state unchanged.  The SHA-256 digest used by
`hash_password` is an external primitive; handlers that hash take the digest
function as an explicit parameter `hashFn`.
-/

namespace MTAA

/-- Row of the `users` table (user_id SERIAL, name, email UNIQUE, password digest). -/
structure User where
  user_id : Nat
  name : String
  email : String
  password : String
deriving DecidableEq

/-- Row of the `chats` table (chat_id SERIAL, chat_name NOT NULL, image nullable). -/
structure Chat where
  chat_id : Nat
  chat_name : String
  image : Option String
deriving DecidableEq

/-- Row of the `tasks` table.  `title` and `owner_user_id` are NOT NULL;
`description`, `date`, `time`, `chat_id` are nullable.  DATE and TIME values
are modelled as naturals ordered like the underlying calendar values. -/
structure Task where
  task_id : Nat
  title : String
  description : Option String
  date : Option Nat
  time : Option Nat
  owner_user_id : Nat
  chat_id : Option Nat
deriving DecidableEq

/-- Row of the `chat_members` table. -/
structure ChatMember where
  membership_id : Nat
  chat_id : Nat
  member_id : Nat
deriving DecidableEq

/-- Row of the `messages` table. -/
structure Message where
  message_id : Nat
  sender_user_id : Nat
  recipient_chat_id : Nat
  message_type : String
  content : Option String
  file_path : Option String
deriving DecidableEq

/-- The database state: the five tables plus the SERIAL id sequences. -/
structure DB where
  users : List User
  chats : List Chat
  tasks : List Task
  chat_members : List ChatMember
  messages : List Message
  nextUserId : Nat
  nextChatId : Nat
  nextTaskId : Nat
  nextMembershipId : Nat
  nextMessageId : Nat
deriving DecidableEq

/-- An HTTP response: status code and the `message` field of the JSON body
(or the fixed server error page for an unhandled exception). -/
structure Resp where
  status : Nat
  message : String
deriving DecidableEq

/-- The empty database produced by `init_db` on a fresh server. -/
def emptyDB : DB :=
  { users := [], chats := [], tasks := [], chat_members := [], messages := []
    nextUserId := 1, nextChatId := 1, nextTaskId := 1
    nextMembershipId := 1, nextMessageId := 1 }

/-- SQL `ASC` comparison on a nullable column: engine default puts NULLs last. -/
def optNLe : Option Nat → Option Nat → Prop
  | none, none => True
  | none, some _ => False
  | some _, none => True
  | some x, some y => x ≤ y

/-- Strict version of `optNLe`. -/
def optNLt : Option Nat → Option Nat → Prop
  | none, _ => False
  | some _, none => True
  | some x, some y => x < y

instance : ∀ a b : Option Nat, Decidable (optNLe a b)
  | none, none => .isTrue trivial
  | none, some _ => .isFalse (fun h => h)
  | some _, none => .isTrue trivial
  | some x, some y => inferInstanceAs (Decidable (x ≤ y))

instance : ∀ a b : Option Nat, Decidable (optNLt a b)
  | none, _ => .isFalse (fun h => h)
  | some _, none => .isTrue trivial
  | some x, some y => inferInstanceAs (Decidable (x < y))

/-- The `ORDER BY date, time` comparison of `get_user_tasks`: lexicographic on
the `date` then `time` columns, NULLs last. -/
def taskLe (a b : Task) : Prop :=
  optNLt a.date b.date ∨ (a.date = b.date ∧ optNLe a.time b.time)

instance : DecidableRel taskLe := fun a b => by
  unfold taskLe
  infer_instance

theorem optNLe_total (a b : Option Nat) : optNLe a b ∨ optNLe b a := by
  cases a <;> cases b <;> simp [optNLe]
  omega

theorem optNLe_trans {a b c : Option Nat} :
    optNLe a b → optNLe b c → optNLe a c := by
  cases a <;> cases b <;> cases c <;> simp [optNLe]
  omega

theorem optNLt_trans {a b c : Option Nat} :
    optNLt a b → optNLt b c → optNLt a c := by
  cases a <;> cases b <;> cases c <;> simp [optNLt]
  omega

instance : IsTotal Task taskLe := by
  constructor
  intro a b
  unfold taskLe
  rcases ha : a.date with _ | x <;> rcases hb : b.date with _ | y
  · rcases optNLe_total a.time b.time with h | h
    · exact Or.inl (Or.inr ⟨rfl, h⟩)
    · exact Or.inr (Or.inr ⟨rfl, h⟩)
  · exact Or.inr (Or.inl trivial)
  · exact Or.inl (Or.inl trivial)
  · rcases Nat.lt_trichotomy x y with h | h | h
    · exact Or.inl (Or.inl h)
    · subst h
      rcases optNLe_total a.time b.time with h2 | h2
      · exact Or.inl (Or.inr ⟨rfl, h2⟩)
      · exact Or.inr (Or.inr ⟨rfl, h2⟩)
    · exact Or.inr (Or.inl h)

instance : IsTrans Task taskLe := by
  constructor
  intro a b c hab hbc
  rcases hab with h1 | ⟨e1, t1⟩
  · rcases hbc with h2 | ⟨e2, t2⟩
    · exact Or.inl (optNLt_trans h1 h2)
    · exact Or.inl (e2 ▸ h1)
  · rcases hbc with h2 | ⟨e2, t2⟩
    · exact Or.inl (e1 ▸ h2)
    · exact Or.inr ⟨e1.trans e2, optNLe_trans t1 t2⟩

/-- Foreign-key check for a nullable reference into `chats`
(`FOREIGN KEY (chat_id) REFERENCES chats(chat_id)`): NULL always passes. -/
def chatFkOk (db : DB) (c : Option Nat) : Bool :=
  match c with
  | none => true
  | some cid => db.chats.any (fun ch => ch.chat_id == cid)

section Handlers

variable (hashFn : String → String)

/-- `POST /register`.  Validates presence (Python falsiness: absent or empty
string), rejects a duplicate email with 409, otherwise inserts the user with
the hashed password and returns 201 with (user_id, name, email). -/
def register (db : DB) (name email password : Option String) :
    Resp × Option (Nat × String × String) × DB :=
  match name, email, password with
  | some nm, some em, some pw =>
    if nm == "" || em == "" || pw == "" then
      (⟨400, "Name, email and password are required"⟩, none, db)
    else if db.users.any (fun u => u.email == em) then
      (⟨409, "Email already registered"⟩, none, db)
    else
      (⟨201, "User registered successfully"⟩, some (db.nextUserId, nm, em),
       { db with users := db.users ++ [⟨db.nextUserId, nm, em, hashFn pw⟩]
                 nextUserId := db.nextUserId + 1 })
  | _, _, _ => (⟨400, "Name, email and password are required"⟩, none, db)

/-- `POST /login`.  Validates presence, then selects the first user row with
matching email and password digest; no row yields the single 401 response. -/
def login (db : DB) (email password : Option String) :
    Resp × Option (Nat × String × String) :=
  match email, password with
  | some em, some pw =>
    if em == "" || pw == "" then
      (⟨400, "Email and password are required"⟩, none)
    else
      match db.users.find? (fun u => u.email == em && u.password == hashFn pw) with
      | some u => (⟨200, "Login successful"⟩, some (u.user_id, u.name, u.email))
      | none => (⟨401, "Invalid email or password"⟩, none)
  | _, _ => (⟨400, "Email and password are required"⟩, none)

end Handlers

/-- `POST /tasks`.  The handler performs no validation and inserts directly;
a NULL `title` or NULL / dangling `owner_user_id`, or a dangling `chat_id`,
violates the tasks table constraints, and the exception is unhandled (no
try/except in `create_task`), so Flask answers 500 and the transaction rolls
back leaving the state unchanged. -/
def create_task (db : DB) (title description : Option String)
    (date time : Option Nat) (owner_user_id chat_id : Option Nat) :
    Resp × Option Nat × DB :=
  match title, owner_user_id with
  | some ttl, some owner =>
    if db.users.any (fun u => u.user_id == owner) && chatFkOk db chat_id then
      (⟨201, "Task created"⟩, some db.nextTaskId,
       { db with tasks := db.tasks ++ [⟨db.nextTaskId, ttl, description, date, time, owner, chat_id⟩]
                 nextTaskId := db.nextTaskId + 1 })
    else (⟨500, "Internal Server Error"⟩, none, db)
  | _, _ => (⟨500, "Internal Server Error"⟩, none, db)

/-- `PUT /tasks/{id}`.  A single UPDATE overwriting title, description, date,
time and chat_id on the matching row (owner_user_id is not in the SET list).
If no row matches, the UPDATE affects nothing and the handler still answers
200.  If a row matches, a NULL title (NOT NULL column) or a dangling chat_id
(foreign key) aborts the statement; the exception is unhandled, so Flask
answers 500 and the transaction rolls back. -/
def update_task (db : DB) (task_id : Nat) (title description : Option String)
    (date time : Option Nat) (chat_id : Option Nat) : Resp × DB :=
  if db.tasks.any (fun t => t.task_id == task_id) then
    match title with
    | some ttl =>
      if chatFkOk db chat_id then
        (⟨200, "Task updated"⟩,
         { db with tasks := db.tasks.map (fun t =>
             if t.task_id == task_id then
               { t with title := ttl, description := description,
                        date := date, time := time, chat_id := chat_id }
             else t) })
      else (⟨500, "Internal Server Error"⟩, db)
    | none => (⟨500, "Internal Server Error"⟩, db)
  else (⟨200, "Task updated"⟩, db)

/-- `DELETE /tasks/{id}`.  Deletes by primary key (nothing references tasks),
always answering 200 whether or not a row existed. -/
def delete_task (db : DB) (task_id : Nat) : Resp × DB :=
  (⟨200, "Task deleted"⟩,
   { db with tasks := db.tasks.filter (fun t => t.task_id != task_id) })

/-- The chat ids fetched by the first query of `get_user_tasks`:
`SELECT chat_id FROM chat_members WHERE member_id = user_id`. -/
def memberChatIds (db : DB) (user_id : Nat) : List Nat :=
  (db.chat_members.filter (fun m => m.member_id == user_id)).map (fun m => m.chat_id)

/-- The WHERE clause built by `get_user_tasks`: when the membership list is
empty only `owner_user_id = user_id` is emitted; otherwise
`owner_user_id = user_id OR (chat_id IN (...))` (a NULL chat_id never
matches the IN list). -/
def taskRowPred (user_id : Nat) (chatIds : List Nat) (t : Task) : Bool :=
  match chatIds with
  | [] => t.owner_user_id == user_id
  | _ :: _ =>
    t.owner_user_id == user_id ||
      (match t.chat_id with
       | some c => chatIds.contains c
       | none => false)

/-- `GET /tasks/{user_id}`: fetch the user's membership chat ids, then select
the tasks matching the dynamically built filter, `ORDER BY date, time`. -/
def get_user_tasks (db : DB) (user_id : Nat) : List Task :=
  let chatIds := memberChatIds db user_id
  List.insertionSort taskLe (db.tasks.filter (taskRowPred user_id chatIds))

/-- `POST /chats`.  Validates presence (Python falsiness: a missing or zero
creator_id and a missing or empty chat_name are rejected), then inserts the
chat and the creator membership in one transaction; a dangling creator_id
violates the membership foreign key, the whole transaction rolls back and the
except clause answers 500. -/
def create_chat (db : DB) (chat_name image : Option String)
    (creator_id : Option Nat) : Resp × Option Nat × DB :=
  match chat_name, creator_id with
  | some nm, some cr =>
    if nm == "" || cr == 0 then
      (⟨400, "Chat name and creator ID are required"⟩, none, db)
    else if db.users.any (fun u => u.user_id == cr) then
      (⟨201, "Chat created successfully"⟩, some db.nextChatId,
       { db with chats := db.chats ++ [⟨db.nextChatId, nm, image⟩]
                 chat_members := db.chat_members ++ [⟨db.nextMembershipId, db.nextChatId, cr⟩]
                 nextChatId := db.nextChatId + 1
                 nextMembershipId := db.nextMembershipId + 1 })
    else (⟨500, "Failed to create chat"⟩, none, db)
  | _, _ => (⟨400, "Chat name and creator ID are required"⟩, none, db)

/-- `GET /chats/{id}/members`: join of `users` with `chat_members` on
`user_id = member_id` filtered by the chat id, returning
(user_id, name, email, membership_id) rows. -/
def get_chat_members (db : DB) (chat_id : Nat) :
    List (Nat × String × String × Nat) :=
  (db.chat_members.filter (fun m => m.chat_id == chat_id)).filterMap (fun m =>
    (db.users.find? (fun u => u.user_id == m.member_id)).map
      (fun u => (u.user_id, u.name, u.email, m.membership_id)))

/-- `DELETE /chats/{id}`.  Deletes the chat row; the declared foreign-key
actions then remove its membership and message rows (`ON DELETE CASCADE`) and
null out `chat_id` on its tasks (`ON DELETE SET NULL`).  A missing chat
answers 404 and changes nothing. -/
def delete_chat (db : DB) (chat_id : Nat) : Resp × DB :=
  if db.chats.any (fun ch => ch.chat_id == chat_id) then
    (⟨200, "Chat deleted successfully"⟩,
     { db with
        chats := db.chats.filter (fun ch => ch.chat_id != chat_id)
        chat_members := db.chat_members.filter (fun m => m.chat_id != chat_id)
        messages := db.messages.filter (fun ms => ms.recipient_chat_id != chat_id)
        tasks := db.tasks.map (fun t =>
          if t.chat_id == some chat_id then { t with chat_id := none } else t) })
  else (⟨404, "Chat not found"⟩, db)

/-- `POST /messages`.  Validates presence of the sender and chat form fields,
then checks `chat_members` for a (chat, sender) row; absence answers 403
before the INSERT is ever executed, so no message row is created.  The
message_type form field defaults to "text". -/
def create_message (db : DB) (sender_user_id recipient_chat_id : Option Nat)
    (message_type content file_path : Option String) : Resp × Option Nat × DB :=
  match sender_user_id, recipient_chat_id with
  | some s, some c =>
    if db.chat_members.any (fun m => m.chat_id == c && m.member_id == s) then
      (⟨201, "Message sent successfully"⟩, some db.nextMessageId,
       { db with messages := db.messages ++
                   [⟨db.nextMessageId, s, c, message_type.getD "text", content, file_path⟩]
                 nextMessageId := db.nextMessageId + 1 })
    else (⟨403, "User is not a member of this chat"⟩, none, db)
  | _, _ => (⟨400, "Sender ID and recipient chat ID are required"⟩, none, db)

/-! ### Helper lemmas -/

theorem find?_append_of_none {α} (l1 l2 : List α) (p : α → Bool)
    (h : ∀ x ∈ l1, p x = false) : (l1 ++ l2).find? p = l2.find? p := by
  induction l1 with
  | nil => rfl
  | cons a l ih =>
    have ha : p a = false := h a (by simp)
    rw [List.cons_append, List.find?_cons_of_neg _ (by simp [ha])]
    exact ih (fun x hx => h x (by simp [hx]))

theorem find?_some_of_exists {α} (l : List α) (p : α → Bool)
    (h : ∃ x ∈ l, p x = true) : ∃ y, l.find? p = some y ∧ p y = true := by
  induction l with
  | nil => simp at h
  | cons a l ih =>
    by_cases ha : p a = true
    · exact ⟨a, List.find?_cons_of_pos _ ha, ha⟩
    · obtain ⟨x, hx, hpx⟩ := h
      rcases List.mem_cons.mp hx with rfl | hx

      · exact absurd hpx ha
      · obtain ⟨y, hy, hpy⟩ := ih ⟨x, hx, hpx⟩
        exact ⟨y, by rw [List.find?_cons_of_neg _ (by simp [ha])]; exact hy, hpy⟩

/-- The WHERE clause of `get_user_tasks` selects exactly the rows owned by the
user or attached to one of the given chat ids, whichever of the two query
shapes was built. -/
theorem taskRowPred_iff (user_id : Nat) (chatIds : List Nat) (t : Task) :
    taskRowPred user_id chatIds t = true ↔
      (t.owner_user_id = user_id ∨ ∃ c ∈ chatIds, t.chat_id = some c) := by
  cases chatIds with
  | nil => simp [taskRowPred]
  | cons c0 cs =>
    cases hc : t.chat_id with
    | none => simp [taskRowPred, hc]
    | some ch =>
      simp only [taskRowPred, hc, Bool.or_eq_true, beq_iff_eq,
        List.contains_iff_exists_mem_beq]
      constructor
      · rintro (h | ⟨x, hx, hbeq⟩)
        · exact Or.inl h
        · exact Or.inr ⟨x, hx, by simp_all⟩
      · rintro (h | ⟨x, hx, hsome⟩)
        · exact Or.inl h
        · exact Or.inr ⟨x, hx, by simp_all⟩

theorem memberChatIds_mem (db : DB) (user_id c : Nat) :
    c ∈ memberChatIds db user_id ↔
      ∃ m ∈ db.chat_members, m.member_id = user_id ∧ m.chat_id = c := by
  simp only [memberChatIds, List.mem_map, List.mem_filter, beq_iff_eq]
  constructor
  · rintro ⟨m, ⟨hm, hmem⟩, rfl⟩
    exact ⟨m, hm, hmem, rfl⟩
  · rintro ⟨m, hm, hmem, rfl⟩
    exact ⟨m, ⟨hm, hmem⟩, rfl⟩

/-! ### Claim C1: task-list visibility and ordering -/

/-- Claim C1: `GET /tasks/{U}` returns exactly the set of tasks whose
owner_user_id equals U or whose chat_id is among the chats in which U has a
membership row, ordered by deadline date then deadline time; when U's
membership set is empty the filter collapses to the owner-only predicate. -/
theorem get_user_tasks_spec (db : DB) (u : Nat) :
    (∀ t : Task, t ∈ get_user_tasks db u ↔
        t ∈ db.tasks ∧ (t.owner_user_id = u ∨
          ∃ m ∈ db.chat_members, m.member_id = u ∧ t.chat_id = some m.chat_id)) ∧
    List.Sorted taskLe (get_user_tasks db u) ∧
    (memberChatIds db u = [] →
      get_user_tasks db u =
        List.insertionSort taskLe
          (db.tasks.filter (fun t => t.owner_user_id == u))) := by
  refine ⟨?_, ?_, ?_⟩
  · intro t
    show t ∈ List.insertionSort taskLe
        (db.tasks.filter (taskRowPred u (memberChatIds db u))) ↔ _
    rw [List.mem_insertionSort, List.mem_filter, taskRowPred_iff]
    constructor
    · rintro ⟨ht, h | ⟨c, hc, hcid⟩⟩
      · exact ⟨ht, Or.inl h⟩
      · obtain ⟨m, hm, hmem, hcc⟩ := (memberChatIds_mem db u c).mp hc
        exact ⟨ht, Or.inr ⟨m, hm, hmem, by rw [hcid, hcc]⟩⟩
    · rintro ⟨ht, h | ⟨m, hm, hmem, hcid⟩⟩
      · exact ⟨ht, Or.inl h⟩
      · refine ⟨ht, Or.inr ⟨m.chat_id, ?_, hcid⟩⟩
        exact (memberChatIds_mem db u m.chat_id).mpr ⟨m, hm, hmem, rfl⟩
  · exact List.sorted_insertionSort taskLe _
  · intro h
    show List.insertionSort taskLe
        (db.tasks.filter (taskRowPred u (memberChatIds db u))) = _
    rw [h]
    rfl

/-- Concrete state for the C1 witness: one user owning tasks, no memberships. -/
def dbC1 : DB :=
  { emptyDB with
    users := [⟨1, "Ann", "ann@x", "h"⟩]
    tasks := [⟨1, "t1", none, some 5, none, 1, none⟩,
              ⟨2, "t2", none, some 3, none, 2, none⟩]
    nextUserId := 2, nextTaskId := 3 }

theorem get_user_tasks_spec_witness :
    memberChatIds dbC1 1 = [] ∧
    get_user_tasks dbC1 1 =
      List.insertionSort taskLe
        (dbC1.tasks.filter (fun t => t.owner_user_id == 1)) :=
  ⟨rfl, (get_user_tasks_spec dbC1 1).2.2 rfl⟩

/-! ### Claim C2: message post requires chat membership -/

/-- Claim C2: a `POST /messages` request whose sender has no membership row in
the target chat is rejected with 403 and no message row is inserted (the
state is unchanged). -/
theorem create_message_nonmember_rejected (db : DB) (s c : Nat)
    (message_type content file_path : Option String)
    (h : ∀ m ∈ db.chat_members, ¬(m.chat_id = c ∧ m.member_id = s)) :
    create_message db (some s) (some c) message_type content file_path =
      (⟨403, "User is not a member of this chat"⟩, none, db) := by
  have hany : db.chat_members.any (fun m => m.chat_id == c && m.member_id == s) = false := by
    rw [List.any_eq_false]
    intro m hm
    simp only [Bool.and_eq_true, beq_iff_eq, not_and]
    intro h1 h2
    exact h m hm ⟨h1, h2⟩
  simp [create_message, hany]

/-- Concrete state for the C2 witness: user 2 exists but is not a member of
chat 1. -/
def dbC2 : DB :=
  { emptyDB with
    users := [⟨1, "A", "a@x", "h"⟩, ⟨2, "B", "b@x", "h"⟩]
    chats := [⟨1, "grp", none⟩]
    chat_members := [⟨1, 1, 1⟩]
    nextUserId := 3, nextChatId := 2, nextMembershipId := 2 }

theorem create_message_nonmember_rejected_witness :
    (∀ m ∈ dbC2.chat_members, ¬(m.chat_id = 1 ∧ m.member_id = 2)) ∧
    create_message dbC2 (some 2) (some 1) none (some "hi") none =
      (⟨403, "User is not a member of this chat"⟩, none, dbC2) :=
  ⟨by decide, create_message_nonmember_rejected dbC2 2 1 none (some "hi") none (by decide)⟩

/-! ### Claim C3: registration / login round trip -/

/-- Digest stand-in used by the C3 concrete runs (the hash function is a
parameter of the embedding; any function exercises the control flow). -/
def hfC3 : String → String := fun s => String.append "d" s

/-- Claim C3 counterexample: after registering ("Ann", "a@x", "pw"), logging
in with the same email and the different password "" does not yield 401 —
the empty password is Python-falsy, so the handler answers 400 (missing
field) before authentication.  This refutes "any different password fails
with HTTP 401" as stated. -/
theorem login_different_password_counterexample :
    (register hfC3 emptyDB (some "Ann") (some "a@x") (some "pw")).1.status = 201 ∧
    "" ≠ "pw" ∧
    (login hfC3 (register hfC3 emptyDB (some "Ann") (some "a@x") (some "pw")).2.2
        (some "a@x") (some "")).1.status = 400 :=
  ⟨rfl, by decide, rfl⟩

/-- Claim C3 (amended): registration with (name, email, password) succeeds and
a subsequent login with the same (email, password) pair returns 200 with the
same user id; a login with that email and any different non-empty password
whose digest differs from the stored digest fails with 401 (an empty
password is instead rejected with 400 before authentication). -/
theorem register_then_login (hashFn : String → String) (db : DB)
    (name email password : String)
    (hn : name ≠ "") (he : email ≠ "") (hp : password ≠ "")
    (hfresh : ∀ u ∈ db.users, u.email ≠ email) :
    ∃ uid db2,
      register hashFn db (some name) (some email) (some password) =
        (⟨201, "User registered successfully"⟩, some (uid, name, email), db2) ∧
      login hashFn db2 (some email) (some password) =
        (⟨200, "Login successful"⟩, some (uid, name, email)) ∧
      ∀ p2 : String, p2 ≠ "" → hashFn p2 ≠ hashFn password →
        login hashFn db2 (some email) (some p2) =
          (⟨401, "Invalid email or password"⟩, none) := by
  have en : (name == "") = false := beq_eq_false_iff_ne.mpr hn
  have ee : (email == "") = false := beq_eq_false_iff_ne.mpr he
  have ep : (password == "") = false := beq_eq_false_iff_ne.mpr hp
  have hanyem : db.users.any (fun u => u.email == email) = false := by
    rw [List.any_eq_false]
    intro u hu
    simp [beq_iff_eq]
    exact hfresh u hu
  refine ⟨db.nextUserId,
    { db with users := db.users ++ [⟨db.nextUserId, name, email, hashFn password⟩]
              nextUserId := db.nextUserId + 1 }, ?_, ?_, ?_⟩
  · simp [register, en, ee, ep, hanyem]
  · have hskip : ∀ u ∈ db.users,
        (u.email == email && u.password == hashFn password) = false := by
      intro u hu
      have : (u.email == email) = false := beq_eq_false_iff_ne.mpr (hfresh u hu)
      simp [this]
    simp only [login, ee, ep, Bool.or_self, if_false]
    rw [find?_append_of_none _ _ _ hskip]
    simp [List.find?]
  · intro p2 hp2 hdig
    have ep2 : (p2 == "") = false := beq_eq_false_iff_ne.mpr hp2
    have hskip : ∀ u ∈ db.users,
        (u.email == email && u.password == hashFn p2) = false := by
      intro u hu
      have : (u.email == email) = false := beq_eq_false_iff_ne.mpr (hfresh u hu)
      simp [this]
    have hnew : ((hashFn password : String) == hashFn p2) = false :=
      beq_eq_false_iff_ne.mpr (fun hcontra => hdig hcontra.symm)
    simp only [login, ee, ep2, Bool.or_self, if_false]
    rw [find?_append_of_none _ _ _ hskip]
    simp [List.find?, hnew]

theorem register_then_login_witness :
    ("Ann" : String) ≠ "" ∧ ("a@x" : String) ≠ "" ∧ ("pw" : String) ≠ "" ∧
    (∀ u ∈ emptyDB.users, u.email ≠ "a@x") ∧
    (∃ uid db2,
      register hfC3 emptyDB (some "Ann") (some "a@x") (some "pw") =
        (⟨201, "User registered successfully"⟩, some (uid, "Ann", "a@x"), db2) ∧
      login hfC3 db2 (some "a@x") (some "pw") =
        (⟨200, "Login successful"⟩, some (uid, "Ann", "a@x")) ∧
      ∀ p2 : String, p2 ≠ "" → hfC3 p2 ≠ hfC3 "pw" →
        login hfC3 db2 (some "a@x") (some p2) =
          (⟨401, "Invalid email or password"⟩, none)) :=
  ⟨by decide, by decide, by decide, by simp [emptyDB],
   register_then_login hfC3 emptyDB "Ann" "a@x" "pw"
     (by decide) (by decide) (by decide) (by simp [emptyDB])⟩

/-! ### Claim C4: deleting a chat cascades to members and messages, nulls tasks -/

/-- Claim C4: deleting an existing chat deletes every membership row and every
message row referencing it, and sets chat_id to null on every task that
referenced it without deleting any task. -/
theorem delete_chat_cascade (db : DB) (c : Nat)
    (hex : ∃ ch ∈ db.chats, ch.chat_id = c) :
    (delete_chat db c).1 = ⟨200, "Chat deleted successfully"⟩ ∧
    (∀ m : ChatMember, m ∈ (delete_chat db c).2.chat_members ↔
        m ∈ db.chat_members ∧ m.chat_id ≠ c) ∧
    (∀ ms : Message, ms ∈ (delete_chat db c).2.messages ↔
        ms ∈ db.messages ∧ ms.recipient_chat_id ≠ c) ∧
    (delete_chat db c).2.tasks.map Task.task_id = db.tasks.map Task.task_id ∧
    (∀ t ∈ (delete_chat db c).2.tasks, t.chat_id ≠ some c) ∧
    (∀ t ∈ db.tasks, t.chat_id = some c →
        { t with chat_id := none } ∈ (delete_chat db c).2.tasks) ∧
    (∀ t ∈ db.tasks, t.chat_id ≠ some c → t ∈ (delete_chat db c).2.tasks) := by
  have hany : db.chats.any (fun ch => ch.chat_id == c) = true := by
    rw [List.any_eq_true]
    obtain ⟨ch, h1, h2⟩ := hex
    exact ⟨ch, h1, by simp [h2]⟩
  simp only [delete_chat, hany, if_true]
  refine ⟨trivial, ?_, ?_, ?_, ?_, ?_, ?_⟩
  · intro m
    simp [List.mem_filter]
  · intro ms
    simp [List.mem_filter]
  · rw [List.map_map]
    apply List.map_congr_left
    intro t _
    by_cases h : t.chat_id == some c <;> simp [Function.comp, h]
  · intro t ht
    rw [List.mem_map] at ht
    obtain ⟨t0, _, rfl⟩ := ht
    by_cases h : t0.chat_id = some c
    · simp [h]
    · have : (t0.chat_id == some c) = false := beq_eq_false_iff_ne.mpr h
      simp [this, h]
  · intro t ht hc
    rw [List.mem_map]
    exact ⟨t, ht, by simp [hc]⟩
  · intro t ht hc
    rw [List.mem_map]
    have : (t.chat_id == some c) = false := beq_eq_false_iff_ne.mpr hc
    exact ⟨t, ht, by simp [this]⟩

/-- Concrete state for the C4 witness: chat 1 with members, a message and two
tasks (one attached to the chat, one not). -/
def dbC4 : DB :=
  { emptyDB with
    users := [⟨1, "A", "a@x", "h"⟩]
    chats := [⟨1, "grp", none⟩, ⟨2, "other", none⟩]
    chat_members := [⟨1, 1, 1⟩, ⟨2, 2, 1⟩]
    messages := [⟨1, 1, 1, "text", some "hi", none⟩]
    tasks := [⟨1, "t", none, none, none, 1, some 1⟩, ⟨2, "t2", none, none, none, 1, none⟩]
    nextUserId := 2, nextChatId := 3, nextTaskId := 3
    nextMembershipId := 3, nextMessageId := 2 }

theorem delete_chat_cascade_witness :
    (∃ ch ∈ dbC4.chats, ch.chat_id = 1) ∧
    (delete_chat dbC4 1).1 = ⟨200, "Chat deleted successfully"⟩ ∧
    ((⟨2, 2, 1⟩ : ChatMember) ∈ (delete_chat dbC4 1).2.chat_members ↔
       (⟨2, 2, 1⟩ : ChatMember) ∈ dbC4.chat_members ∧ (2 : Nat) ≠ 1) ∧
    (delete_chat dbC4 1).2.tasks.map Task.task_id = dbC4.tasks.map Task.task_id :=
  ⟨by decide, (delete_chat_cascade dbC4 1 (by decide)).1,
   (delete_chat_cascade dbC4 1 (by decide)).2.1 ⟨2, 2, 1⟩,
   (delete_chat_cascade dbC4 1 (by decide)).2.2.2.1⟩

/-! ### Claim C5: duplicate email registration conflicts -/

/-- Claim C5: if a user with email E is already stored, registering again with
email E fails with 409 and leaves the state (in particular the stored user
set) unchanged.  Presence hypotheses reflect a well-formed registration
request; stored emails are nonempty since registration rejects empty ones. -/
theorem register_duplicate_email (hashFn : String → String) (db : DB)
    (n e p : String) (hn : n ≠ "") (he : e ≠ "") (hp : p ≠ "")
    (hdup : ∃ u ∈ db.users, u.email = e) :
    register hashFn db (some n) (some e) (some p) =
      (⟨409, "Email already registered"⟩, none, db) := by
  have en : (n == "") = false := beq_eq_false_iff_ne.mpr hn
  have ee : (e == "") = false := beq_eq_false_iff_ne.mpr he
  have ep : (p == "") = false := beq_eq_false_iff_ne.mpr hp
  have hany : db.users.any (fun u => u.email == e) = true := by
    rw [List.any_eq_true]
    obtain ⟨u, h1, h2⟩ := hdup
    exact ⟨u, h1, by simp [h2]⟩
  simp [register, en, ee, ep, hany]

/-- Concrete state for the C5 witness. -/
def dbC5 : DB :=
  { emptyDB with users := [⟨1, "A", "a@x", "h"⟩], nextUserId := 2 }

theorem register_duplicate_email_witness :
    ("B" : String) ≠ "" ∧ ("a@x" : String) ≠ "" ∧ ("pw2" : String) ≠ "" ∧
    (∃ u ∈ dbC5.users, u.email = "a@x") ∧
    register (fun s => String.append "d" s) dbC5 (some "B") (some "a@x") (some "pw2") =
      (⟨409, "Email already registered"⟩, none, dbC5) :=
  ⟨by decide, by decide, by decide, by decide,
   register_duplicate_email (fun s => String.append "d" s) dbC5 "B" "a@x" "pw2"
     (by decide) (by decide) (by decide) (by decide)⟩

/-! ### Claim C6: create task without a title -/

/-- Concrete state for the C6 counterexample: a valid owner exists, only the
title is missing. -/
def dbC6 : DB :=
  { emptyDB with users := [⟨1, "A", "a@x", "h"⟩], nextUserId := 2 }

/-- Claim C6 counterexample: a `POST /tasks` request with no title does not
answer 400 — `create_task` performs no validation, the INSERT violates the
NOT NULL constraint on title, the exception is unhandled, and the client
receives 500.  No task row is inserted. -/
theorem create_task_missing_title_counterexample :
    (create_task dbC6 none (some "desc") none none (some 1) none).1.status = 500 ∧
    (create_task dbC6 none (some "desc") none none (some 1) none).1.status ≠ 400 ∧
    (create_task dbC6 none (some "desc") none none (some 1) none).2.2 = dbC6 :=
  ⟨rfl, by decide, rfl⟩

/-- Claim C6 (amended): a `POST /tasks` request whose title field is missing
fails with HTTP 500 (the NOT NULL violation on title aborts the transaction
and the exception is unhandled) and inserts no task row. -/
theorem create_task_missing_title (db : DB) (description : Option String)
    (date time : Option Nat) (owner chat : Option Nat) :
    create_task db none description date time owner chat =
      (⟨500, "Internal Server Error"⟩, none, db) := by
  cases owner <;> rfl

/-! ### Claim C7: updating / deleting a nonexistent task is a silent no-op -/

/-- Claim C7: when no task has the given id, `PUT /tasks/{id}` and
`DELETE /tasks/{id}` both answer 200 with their success message and change
no stored rows (no 404 is reported). -/
theorem update_delete_missing_task_noop (db : DB) (task_id : Nat)
    (habs : ∀ t ∈ db.tasks, t.task_id ≠ task_id) :
    (∀ title description date time chat_id,
        update_task db task_id title description date time chat_id =
          (⟨200, "Task updated"⟩, db)) ∧
    delete_task db task_id = (⟨200, "Task deleted"⟩, db) := by
  have hany : db.tasks.any (fun t => t.task_id == task_id) = false := by
    rw [List.any_eq_false]
    intro t ht
    simp [beq_iff_eq]
    exact habs t ht
  constructor
  · intro title description date time chat_id
    simp [update_task, hany]
  · have hfilter : db.tasks.filter (fun t => t.task_id != task_id) = db.tasks := by
      rw [List.filter_eq_self]
      intro t ht
      simp [bne_iff_ne]
      exact habs t ht
    simp [delete_task, hfilter]

/-- Concrete state for the C7 witness: one task with id 1; id 99 is absent. -/
def dbC7 : DB :=
  { emptyDB with
    users := [⟨1, "A", "a@x", "h"⟩]
    tasks := [⟨1, "t", none, none, none, 1, none⟩]
    nextUserId := 2, nextTaskId := 2 }

theorem update_delete_missing_task_noop_witness :
    (∀ t ∈ dbC7.tasks, t.task_id ≠ 99) ∧
    update_task dbC7 99 (some "new") (some "d") none none none =
      (⟨200, "Task updated"⟩, dbC7) ∧
    delete_task dbC7 99 = (⟨200, "Task deleted"⟩, dbC7) :=
  ⟨by decide,
   (update_delete_missing_task_noop dbC7 99 (by decide)).1 (some "new") (some "d") none none none,
   (update_delete_missing_task_noop dbC7 99 (by decide)).2⟩

/-! ### Claim C8: chat creation auto-adds the creator as first member -/

/-- Claim C8: creating a chat with chat_name and an existing creator U inserts
the chat and, in the same unit of work, a membership row joining U to the
new chat, so that listing the new chat's members contains U; a request
missing chat_name or creator_id fails with 400 and creates nothing. -/
theorem create_chat_adds_creator (db : DB) (nm : String) (img : Option String)
    (u : Nat) (hnm : nm ≠ "") (hu0 : u ≠ 0)
    (hex : ∃ us ∈ db.users, us.user_id = u) :
    ((create_chat db (some nm) img (some u)).1 = ⟨201, "Chat created successfully"⟩ ∧
     (create_chat db (some nm) img (some u)).2.1 = some db.nextChatId ∧
     (create_chat db (some nm) img (some u)).2.2.chats =
        db.chats ++ [⟨db.nextChatId, nm, img⟩] ∧
     (create_chat db (some nm) img (some u)).2.2.chat_members =
        db.chat_members ++ [⟨db.nextMembershipId, db.nextChatId, u⟩] ∧
     ∃ row ∈ get_chat_members (create_chat db (some nm) img (some u)).2.2 db.nextChatId,
        row.1 = u) ∧
    (∀ img2 creator, create_chat db none img2 creator =
        (⟨400, "Chat name and creator ID are required"⟩, none, db)) ∧
    (∀ nm2 img2, create_chat db (some nm2) img2 none =
        (⟨400, "Chat name and creator ID are required"⟩, none, db)) := by
  have enm : (nm == "") = false := beq_eq_false_iff_ne.mpr hnm
  have eu : (u == 0) = false := beq_eq_false_iff_ne.mpr hu0
  have hanyu : db.users.any (fun x => x.user_id == u) = true := by
    rw [List.any_eq_true]
    obtain ⟨us, h1, h2⟩ := hex
    exact ⟨us, h1, by simp [h2]⟩
  refine ⟨?_, ?_, ?_⟩
  · have hred : create_chat db (some nm) img (some u) =
        (⟨201, "Chat created successfully"⟩, some db.nextChatId,
         { db with chats := db.chats ++ [⟨db.nextChatId, nm, img⟩]
                   chat_members := db.chat_members ++ [⟨db.nextMembershipId, db.nextChatId, u⟩]
                   nextChatId := db.nextChatId + 1
                   nextMembershipId := db.nextMembershipId + 1 }) := by
      simp [create_chat, enm, eu, hanyu]
    rw [hred]
    refine ⟨rfl, rfl, rfl, rfl, ?_⟩
    obtain ⟨usr, husr, hpusr⟩ := find?_some_of_exists db.users
        (fun x => x.user_id == u)
        (by obtain ⟨us, h1, h2⟩ := hex; exact ⟨us, h1, by simp [h2]⟩)
    refine ⟨(usr.user_id, usr.name, usr.email, db.nextMembershipId), ?_, by
      simpa [beq_iff_eq] using hpusr⟩
    unfold get_chat_members
    rw [List.mem_filterMap]
    refine ⟨⟨db.nextMembershipId, db.nextChatId, u⟩, ?_, ?_⟩
    · rw [List.mem_filter]
      constructor
      · simp
      · simp
    · show (db.users.find? (fun x => x.user_id == u)).map _ = _
      rw [husr]
      rfl
  · intro img2 creator
    cases creator <;> rfl
  · intro nm2 img2
    rfl

/-- Concrete state for the C8 witness. -/
def dbC8 : DB :=
  { emptyDB with users := [⟨7, "G", "g@x", "h"⟩], nextUserId := 8 }

theorem create_chat_adds_creator_witness :
    ("grp" : String) ≠ "" ∧ (7 : Nat) ≠ 0 ∧
    (∃ us ∈ dbC8.users, us.user_id = 7) ∧
    ((create_chat dbC8 (some "grp") none (some 7)).1 = ⟨201, "Chat created successfully"⟩ ∧
     (create_chat dbC8 (some "grp") none (some 7)).2.1 = some dbC8.nextChatId ∧
     (create_chat dbC8 (some "grp") none (some 7)).2.2.chats =
        dbC8.chats ++ [⟨dbC8.nextChatId, "grp", none⟩] ∧
     (create_chat dbC8 (some "grp") none (some 7)).2.2.chat_members =
        dbC8.chat_members ++ [⟨dbC8.nextMembershipId, dbC8.nextChatId, 7⟩] ∧
     ∃ row ∈ get_chat_members (create_chat dbC8 (some "grp") none (some 7)).2.2 dbC8.nextChatId,
        row.1 = 7) :=
  ⟨by decide, by decide, by decide,
   (create_chat_adds_creator dbC8 "grp" none 7 (by decide) (by decide) (by decide)).1⟩

/-! ### Claim C9: login failures are indistinguishable -/

/-- Claim C9: for any well-formed credentials, the full login response (status
code and body) for an unknown email is identical to the one for a registered
email with a wrong password: both are the single 401 response. -/
theorem login_failure_indistinguishable (hashFn : String → String)
    (db1 db2 : DB) (e1 p1 e2 p2 : String)
    (he1 : e1 ≠ "") (hp1 : p1 ≠ "") (he2 : e2 ≠ "") (hp2 : p2 ≠ "")
    (hunknown : ∀ u ∈ db1.users, u.email ≠ e1)
    (_hreg : ∃ u ∈ db2.users, u.email = e2)
    (hwrong : ∀ u ∈ db2.users, u.email = e2 → u.password ≠ hashFn p2) :
    login hashFn db1 (some e1) (some p1) = login hashFn db2 (some e2) (some p2) ∧
    login hashFn db1 (some e1) (some p1) =
      (⟨401, "Invalid email or password"⟩, none) := by
  have ee1 : (e1 == "") = false := beq_eq_false_iff_ne.mpr he1
  have ep1 : (p1 == "") = false := beq_eq_false_iff_ne.mpr hp1
  have ee2 : (e2 == "") = false := beq_eq_false_iff_ne.mpr he2
  have ep2 : (p2 == "") = false := beq_eq_false_iff_ne.mpr hp2
  have f1 : db1.users.find? (fun u => u.email == e1 && u.password == hashFn p1) = none := by
    rw [List.find?_eq_none]
    intro u hu
    simp only [Bool.and_eq_true, beq_iff_eq, not_and]
    intro ha _
    exact hunknown u hu ha
  have f2 : db2.users.find? (fun u => u.email == e2 && u.password == hashFn p2) = none := by
    rw [List.find?_eq_none]
    intro u hu
    simp only [Bool.and_eq_true, beq_iff_eq, not_and]
    intro ha hb
    exact hwrong u hu ha hb
  constructor
  · simp [login, ee1, ep1, ee2, ep2, f1, f2]
  · simp [login, ee1, ep1, f1]

/-- Concrete states for the C9 witness: db1 has no user with the probed email;
db2 stores that email with a different digest. -/
def dbC9 : DB :=
  { emptyDB with
    users := [⟨1, "A", "a@x", String.append "d" "pw"⟩]
    nextUserId := 2 }

theorem login_failure_indistinguishable_witness :
    ("n@x" : String) ≠ "" ∧ ("p1" : String) ≠ "" ∧
    ("a@x" : String) ≠ "" ∧ ("xx" : String) ≠ "" ∧
    (∀ u ∈ emptyDB.users, u.email ≠ "n@x") ∧
    (∃ u ∈ dbC9.users, u.email = "a@x") ∧
    (∀ u ∈ dbC9.users, u.email = "a@x" → u.password ≠ String.append "d" "xx") ∧
    login (fun s => String.append "d" s) emptyDB (some "n@x") (some "p1") =
      login (fun s => String.append "d" s) dbC9 (some "a@x") (some "xx") ∧
    login (fun s => String.append "d" s) emptyDB (some "n@x") (some "p1") =
      (⟨401, "Invalid email or password"⟩, none) :=
  ⟨by decide, by decide, by decide, by decide, by simp [emptyDB], by decide, by decide,
   (login_failure_indistinguishable (fun s => String.append "d" s) emptyDB dbC9
      "n@x" "p1" "a@x" "xx" (by decide) (by decide) (by decide) (by decide)
      (by simp [emptyDB]) (by decide) (by decide)).1,
   (login_failure_indistinguishable (fun s => String.append "d" s) emptyDB dbC9
      "n@x" "p1" "a@x" "xx" (by decide) (by decide) (by decide) (by decide)
      (by simp [emptyDB]) (by decide) (by decide)).2⟩

/-! ### Claim C10: task update never touches owner_user_id -/

/-- Concrete state for the C10 counterexample: task 1 exists with title "old"
and owner 7. -/
def dbC10 : DB :=
  { emptyDB with
    users := [⟨7, "G", "g@x", "h"⟩]
    tasks := [⟨1, "old", some "keep", none, none, 7, none⟩]
    nextUserId := 8, nextTaskId := 2 }

/-- Claim C10 counterexample: with the title field omitted, the existing
task's columns are NOT overwritten with null — the UPDATE violates the NOT
NULL constraint on title, the request fails with 500, and the row keeps all
its old values (title "old", description "keep").  This refutes "each of
title, description, date, time, and chat_id is overwritten (with null when
omitted)" as stated. -/
theorem update_task_omitted_title_counterexample :
    (update_task dbC10 1 none none none none none).1.status = 500 ∧
    (update_task dbC10 1 none none none none none).2 = dbC10 ∧
    (update_task dbC10 1 none none none none none).2.tasks =
      [⟨1, "old", some "keep", none, none, 7, none⟩] :=
  ⟨rfl, rfl, rfl⟩

/-- Claim C10 (amended): `PUT /tasks/{id}` never changes any task's
owner_user_id (it is not among the updated columns).  When the title field
is present and the chat reference is valid, the matching row's title,
description, date, time and chat_id are overwritten with the body values
(null for the omitted optional fields) and owner_user_id is kept; when the
title field is omitted and the task exists, the update fails with 500 and
changes nothing. -/
theorem update_task_preserves_owner (db : DB) (task_id : Nat)
    (title description : Option String) (date time chat_id : Option Nat) :
    ((update_task db task_id title description date time chat_id).2.tasks.map
        (fun t => (t.task_id, t.owner_user_id)) =
      db.tasks.map (fun t => (t.task_id, t.owner_user_id))) ∧
    (∀ ttl, title = some ttl → chatFkOk db chat_id = true →
      (update_task db task_id title description date time chat_id).2.tasks =
        db.tasks.map (fun t =>
          if t.task_id = task_id then
            ⟨t.task_id, ttl, description, date, time, t.owner_user_id, chat_id⟩
          else t)) ∧
    (title = none → (∃ t ∈ db.tasks, t.task_id = task_id) →
      update_task db task_id title description date time chat_id =
        (⟨500, "Internal Server Error"⟩, db)) := by
  refine ⟨?_, ?_, ?_⟩
  · unfold update_task
    by_cases hany : db.tasks.any (fun t => t.task_id == task_id)
    · simp only [hany, if_true]
      cases title with
      | none => rfl
      | some ttl =>
        by_cases hfk : chatFkOk db chat_id
        · simp only [hfk, if_true, List.map_map]
          apply List.map_congr_left
          intro t _
          by_cases h : t.task_id == task_id <;> simp [Function.comp, h]
        · simp [hfk]
    · simp [hany]
  · rintro ttl rfl hfk
    by_cases hany : db.tasks.any (fun t => t.task_id == task_id)
    · simp only [update_task, hany, if_true, hfk]
      apply List.map_congr_left
      intro t _
      by_cases h : t.task_id = task_id
      · have hb : (t.task_id == task_id) = true := beq_iff_eq.mpr h
        simp [hb, h]
      · have hb : (t.task_id == task_id) = false := beq_eq_false_iff_ne.mpr h
        simp [hb, h]
    · have hall : ∀ t ∈ db.tasks, ¬ t.task_id = task_id := by
        rw [Bool.not_eq_true, List.any_eq_false] at hany
        intro t ht
        simpa [beq_iff_eq] using hany t ht
      have hmap : db.tasks.map (fun t =>
          if t.task_id = task_id then
            (⟨t.task_id, ttl, description, date, time, t.owner_user_id, chat_id⟩ : Task)
          else t) = db.tasks := by
        have : db.tasks.map (fun t =>
            if t.task_id = task_id then
              (⟨t.task_id, ttl, description, date, time, t.owner_user_id, chat_id⟩ : Task)
            else t) = db.tasks.map (fun t => t) :=
          List.map_congr_left (fun t ht => if_neg (hall t ht))
        simpa using this
      simp [update_task, hany, hmap]
  · rintro rfl ⟨t0, ht0, hid⟩
    have hany : db.tasks.any (fun t => t.task_id == task_id) = true := by
      rw [List.any_eq_true]
      exact ⟨t0, ht0, by simp [hid]⟩
    simp [update_task, hany]

theorem update_task_preserves_owner_witness :
    ((update_task dbC10 1 (some "new") (some "d2") none none none).2.tasks.map
        (fun t => (t.task_id, t.owner_user_id)) =
      dbC10.tasks.map (fun t => (t.task_id, t.owner_user_id))) ∧
    ((update_task dbC10 1 (some "new") (some "d2") none none none).2.tasks =
      dbC10.tasks.map (fun t =>
        if t.task_id = 1 then
          ⟨t.task_id, "new", some "d2", none, none, t.owner_user_id, none⟩
        else t)) ∧
    update_task dbC10 1 none none none none none =
      (⟨500, "Internal Server Error"⟩, dbC10) :=
  ⟨(update_task_preserves_owner dbC10 1 (some "new") (some "d2") none none none).1,
   (update_task_preserves_owner dbC10 1 (some "new") (some "d2") none none none).2.1
     "new" rfl rfl,
   (update_task_preserves_owner dbC10 1 none none none none none).2.2 rfl
     ⟨⟨1, "old", some "keep", none, none, 7, none⟩, by decide, rfl⟩⟩

end MTAA
